import Mathlib

/-!
Shallow embedding of `company_address_extractor.py`, a single-shot batch tool
that queries the Companies House advanced-search API and writes registered
addresses to a text file.

Modelling notes:
* Python dictionaries reaching the program (the parsed JSON response, each
  company item, the nested address) are modelled structurally: a key that may
  be absent is an `Option` field; the count of further keys not read by the
  program is kept as `otherKeys`, so that Python dict truthiness (non-empty)
  is expressible.  Values are modelled at the types the program reads
  (strings for address fields, an integer for `hits`).
* Python string truthiness (`if s:`) is non-emptiness; `dict.get(k, d)` is
  `Option.getD`.
* File I/O is assumed to succeed: the writer's result records the content
  written (`fileContent = some body` means the file exists with that body).
* `str.isalnum` is modelled by `Char.isAlphanum` (the inputs exercised by the
  specification are ASCII).
* The exception dispatch of the fetcher's `try/except` ladder is modelled by
  a first-match scan over the clause list, with the exception-class hierarchy
  of the `requests` library (≥ 2.27, where `requests.exceptions.JSONDecodeError`
  subclasses both `RequestException` and `json.JSONDecodeError`) encoded as
  membership predicates.
-/

namespace CompanyAddressExtractor

/-! ## Data model -/

/-- The nested `registered_office_address` dictionary of a company item.
Each field models the presence/absence of the corresponding JSON key, read by
the program via `.get(key, "")`; `otherKeys` counts keys of the dictionary
that the program never reads (so that dict emptiness is representable). -/
structure Address where
  address_line_1 : Option String
  address_line_2 : Option String
  locality : Option String
  postal_code : Option String
  otherKeys : Nat
deriving Repr, DecidableEq

/-- Python truthiness of the address dictionary: a dict is falsy iff it has
no keys.  `if not address_info:` in the source skips exactly these. -/
def Address.isEmptyDict (a : Address) : Bool :=
  a.address_line_1.isNone && a.address_line_2.isNone && a.locality.isNone &&
    a.postal_code.isNone && a.otherKeys == 0

/-- A company item of the response.  `company_name` is the optional
`company_name` key; `registered_office_address` is `none` when the key is
absent or its value is JSON `null`, `some a` when it is a dictionary. -/
structure Company where
  company_name : Option String
  registered_office_address : Option Address
deriving Repr, DecidableEq

/-- The parsed JSON response body (a JSON object).  `items` is the optional
`items` key (a list of company items), `hits` the optional integer `hits`
key, `otherKeys` the number of further keys. -/
structure ApiData where
  items : Option (List Company)
  hits : Option Int
  otherKeys : Nat
deriving Repr, DecidableEq

/-- Python truthiness of the parsed response object: non-empty dictionary. -/
def ApiData.truthy (d : ApiData) : Bool :=
  d.items.isSome || d.hits.isSome || decide (0 < d.otherKeys)

/-! ## Fetcher: URL and Authorization header (`fetch_company_data`, lines 20-31) -/

def base_url : String :=
  "https://api.company-information.service.gov.uk/advanced-search/companies"

/-- Python `",".join(sic_codes_list)`. -/
def commaJoin : List String → String
  | [] => ""
  | [c] => c
  | c :: c' :: cs => c ++ "," ++ commaJoin (c' :: cs)

/-- The request URL built at line 22 of the source. -/
def requestUrl (location : String) (sic_codes_list : List String) : String :=
  base_url ++ "?location=" ++ location ++ "&company_status=active&size=500&sic_codes=" ++
    commaJoin sic_codes_list

/-- The standard base64 alphabet. -/
def b64Alphabet : List Char :=
  "ABCDEFGHIJKLMNOPQRSTUVWXYZabcdefghijklmnopqrstuvwxyz0123456789+/".data

def b64Char (n : Nat) : Char := b64Alphabet.getD n '?'

/-- Standard base64 encoding of a byte list (bytes as naturals < 256),
with `=` padding, as `base64.b64encode` produces. -/
def base64Encode : List Nat → String
  | [] => ""
  | [b1] => String.mk [b64Char (b1 / 4), b64Char (b1 % 4 * 16)] ++ "=="
  | [b1, b2] =>
      String.mk [b64Char (b1 / 4), b64Char (b1 % 4 * 16 + b2 / 16),
        b64Char (b2 % 16 * 4)] ++ "="
  | b1 :: b2 :: b3 :: rest =>
      String.mk [b64Char (b1 / 4), b64Char (b1 % 4 * 16 + b2 / 16),
        b64Char (b2 % 16 * 4 + b3 / 64), b64Char (b3 % 64)] ++
        base64Encode rest

/-- UTF-8 encoding of a single character (`str.encode('utf-8')` per char). -/
def utf8EncodeChar (c : Char) : List Nat :=
  let n := c.toNat
  if n < 128 then [n]
  else if n < 2048 then [192 + n / 64, 128 + n % 64]
  else if n < 65536 then [224 + n / 4096, 128 + n / 64 % 64, 128 + n % 64]
  else [240 + n / 262144, 128 + n / 4096 % 64, 128 + n / 64 % 64, 128 + n % 64]

/-- UTF-8 encoding of a string as a byte list. -/
def utf8Encode (s : String) : List Nat :=
  (s.data.map utf8EncodeChar).flatten

/-- Line 25-26 of the source: `base64.b64encode((raw_api_key + ":").encode('utf-8'))`. -/
def encoded_auth_string (raw_api_key : String) : String :=
  base64Encode (utf8Encode (raw_api_key ++ ":"))

/-- The `Authorization` header value built at line 30 of the source. -/
def authorizationHeader (raw_api_key : String) : String :=
  "Basic " ++ encoded_auth_string raw_api_key

/-! ## Fetcher: exception dispatch (`fetch_company_data`, lines 36-54) -/

/-- Exceptions that the body of the `try` block at lines 36-39 may raise,
classified by the exception classes of the `requests` library. -/
inductive PyExc where
  | httpError            -- `requests.exceptions.HTTPError`, from `raise_for_status()`
  | timeoutErr           -- `requests.exceptions.Timeout`
  | connectionError      -- `requests.exceptions.ConnectionError`
  | jsonDecodeError      -- `requests.exceptions.JSONDecodeError`, from `response.json()`
  | otherRequestException -- any other `requests.exceptions.RequestException`
deriving Repr, DecidableEq

/-- Membership in `requests.exceptions.HTTPError`. -/
def isHTTPError : PyExc → Bool
  | .httpError => true
  | _ => false

/-- Membership in `requests.exceptions.Timeout`. -/
def isTimeout : PyExc → Bool
  | .timeoutErr => true
  | _ => false

/-- Membership in `requests.exceptions.ConnectionError`. -/
def isConnectionErr : PyExc → Bool
  | .connectionError => true
  | _ => false

/-- Membership in `requests.exceptions.RequestException`: every listed
exception subclasses it; in particular, since requests 2.27,
`requests.exceptions.JSONDecodeError` (raised by `response.json()`)
subclasses `InvalidJSONError`, itself a `RequestException`. -/
def isRequestException : PyExc → Bool
  | _ => true

/-- Membership in `json.JSONDecodeError`: the `requests` JSON decode error
also subclasses the standard-library `json.JSONDecodeError`. -/
def isJsonDecodeError : PyExc → Bool
  | .jsonDecodeError => true
  | _ => false

/-- The `except` clauses of `fetch_company_data`, in source order, plus the
outcome of an exception no clause matches. -/
inductive FetchBranch where
  | httpBranch     -- line 40: "HTTP error occurred"
  | timeoutBranch  -- line 44: "Timeout error occurred"
  | connBranch     -- line 46: "Connection error occurred"
  | genericBranch  -- line 48: "An unexpected request error occurred"
  | parseBranch    -- line 50: "Failed to decode JSON from response."
  | unhandled
deriving Repr, DecidableEq

/-- Python `except` dispatch: the clauses of lines 40-53 are tried in order
and the first whose class contains the raised exception runs. -/
def dispatchExcept (e : PyExc) : FetchBranch :=
  if isHTTPError e then .httpBranch
  else if isTimeout e then .timeoutBranch
  else if isConnectionErr e then .connBranch
  else if isRequestException e then .genericBranch
  else if isJsonDecodeError e then .parseBranch
  else .unhandled

/-- After any handled exception, `fetch_company_data` falls through to
`return None` (line 54). -/
def fetchResultOnException (e : PyExc) : Option ApiData :=
  match dispatchExcept e with
  | .unhandled => none  -- (propagates; no value is returned either way)
  | _ => none

/-! ## Report writer (`format_and_save_addresses`, lines 57-159) -/

/-- Line 73-74: `"".join(c if c.isalnum() else "_" for c in s)`. -/
def sanitizeForFilename (s : String) : String :=
  String.mk (s.data.map fun c => if c.isAlphanum then c else '_')

/-- Lines 67-75: the derived output filename, `none` when the SIC code list
is empty (the function returns without writing in that case). -/
def outputFilename (location : String) (sic_codes_list : List String) : Option String :=
  match sic_codes_list with
  | [] => none
  | c :: _ => some (sanitizeForFilename location ++ "_" ++ sanitizeForFilename c ++ ".txt")

/-- Python `", ".join(sic_codes_list)` used inside the explanatory messages. -/
def commaSpaceJoin : List String → String
  | [] => ""
  | [c] => c
  | c :: c' :: cs => c ++ ", " ++ commaSpaceJoin (c' :: cs)

/-- Lines 81-82: body of the file written when there are no items. -/
def noDataMessage (location : String) (sic_codes_list : List String) : String :=
  "No company data found for location '" ++ location ++ "' and SIC code(s) '" ++
    commaSpaceJoin sic_codes_list ++ "'.\n"

/-- Lines 133-135: body of the file written when every record was skipped. -/
def allSkippedMessage (location : String) (sic_codes_list : List String)
    (itemCount skippedCount : Nat) : String :=
  "No companies with complete address data found for location '" ++ location ++
    "' and SIC code(s) '" ++ commaSpaceJoin sic_codes_list ++ "'.\n" ++
    "Total records received: " ++ toString itemCount ++ ", Total skipped: " ++
    toString skippedCount ++ "\n"

/-- The mutable state of the loop at lines 88-126. -/
structure LoopState where
  output_lines : List String
  skipped_count : Nat
  processed_count : Nat
deriving Repr, DecidableEq

def initState : LoopState := ⟨[], 0, 0⟩

/-- Line 100: `company.get("company_name", "N/A")`. -/
def extractName (c : Company) : String := c.company_name.getD "N/A"

/-- Line 114: `not company_name and not address_line_1 and not locality and
not postal_code` on the extracted values (string truthiness = non-empty). -/
def essentialsEmpty (c : Company) (a : Address) : Bool :=
  extractName c == "" && a.address_line_1.getD "" == "" &&
    a.locality.getD "" == "" && a.postal_code.getD "" == ""

/-- Lines 119-125: the lines appended for one processed company (the
`address_line_2` line only when that field is truthy, i.e. non-empty). -/
def companyBlock (c : Company) (a : Address) : List String :=
  [extractName c, a.address_line_1.getD ""] ++
    (if a.address_line_2.getD "" ≠ "" then [a.address_line_2.getD ""] else []) ++
    [a.locality.getD "", a.postal_code.getD "", "----"]

/-- One iteration of the loop at lines 92-126. -/
def processItem (st : LoopState) (c : Company) : LoopState :=
  match c.registered_office_address with
  | none => { st with skipped_count := st.skipped_count + 1 }
  | some a =>
    if a.isEmptyDict then { st with skipped_count := st.skipped_count + 1 }
    else if essentialsEmpty c a then { st with skipped_count := st.skipped_count + 1 }
    else { st with
            output_lines := st.output_lines ++ companyBlock c a,
            processed_count := st.processed_count + 1 }

/-- The whole loop over `data["items"]`. -/
def runItems (items : List Company) : LoopState :=
  items.foldl processItem initState

/-- The observable outcome of `format_and_save_addresses`: the file body
written (if any file was written), whether the pagination note of lines
154-156 was printed, and whether an uncaught `TypeError` escaped the
function (the `int < str` comparison at line 153 when `hits` is absent). -/
structure WriterOutcome where
  fileContent : Option String
  paginationNote : Bool
  uncaughtTypeError : Bool
deriving Repr, DecidableEq

/-- `format_and_save_addresses(data, location, sic_codes_list)`,
lines 57-159.  `data = none` models Python `None`; file writes succeed. -/
def format_and_save_addresses (data : Option ApiData) (location : String)
    (sic_codes_list : List String) : WriterOutcome :=
  match sic_codes_list with
  | [] => ⟨none, false, false⟩       -- line 67-69: early return, nothing written
  | _ :: _ =>
    match data with
    | none => ⟨some (noDataMessage location sic_codes_list), false, false⟩  -- `not data`
    | some d =>
      if !d.truthy then ⟨some (noDataMessage location sic_codes_list), false, false⟩
      else match d.items with
      | none => ⟨some (noDataMessage location sic_codes_list), false, false⟩  -- no "items" key
      | some [] => ⟨some (noDataMessage location sic_codes_list), false, false⟩  -- empty items
      | some (c :: cs) =>
        let st := runItems (c :: cs)
        if st.output_lines.isEmpty && st.processed_count == 0 then
          ⟨some (allSkippedMessage location sic_codes_list (c :: cs).length st.skipped_count),
            false, false⟩
        else
          match d.hits with
          | some h =>
            ⟨some (String.intercalate "\n" st.output_lines),
              decide ((((c :: cs).length : Int)) < h), false⟩
          | none =>
            -- line 149: api_hits = "N/A"; line 153: `len(items) < "N/A"` raises
            -- TypeError after the file body was already written and the file closed
            ⟨some (String.intercalate "\n" st.output_lines), false, true⟩

/-! ## Entry point (`__main__`, lines 162-190) -/

/-- Lines 185-190: the writer runs only when the fetch returned a truthy
value; the result is the file body written during the run (if any). -/
def mainAfterFetch (company_api_data : Option ApiData) (location : String)
    (sic_codes_list : List String) : Option String :=
  match company_api_data with
  | none => none
  | some d =>
    if d.truthy then (format_and_save_addresses (some d) location sic_codes_list).fileContent
    else none

/-! ## Claim-side definitions

`splitOnComma` is the observation used to state that the comma-join of the
SIC codes contains each code exactly once, in input order: splitting the
joined string on `,` recovers the code list. -/

/-- Split a character list on the comma character (the groups between
commas, in order; `n` commas give `n+1` groups). -/
def splitOnComma : List Char → List (List Char)
  | [] => [[]]
  | c :: cs =>
    if c = ',' then [] :: splitOnComma cs
    else (c :: (splitOnComma cs).headI) :: (splitOnComma cs).tail

end CompanyAddressExtractor

namespace CompanyAddressExtractor

/-! ## Helper lemmas -/

lemma splitOnComma_no_comma (cs : List Char) (h : ',' ∉ cs) :
    splitOnComma cs = [cs] := by
  induction cs with
  | nil => rfl
  | cons c cs ih =>
    have hc : ¬ c = ',' := fun e => h (e ▸ List.mem_cons_self c cs)
    have hcs : ',' ∉ cs := fun m => h (List.mem_cons_of_mem _ m)
    simp [splitOnComma, hc, ih hcs]

lemma splitOnComma_append (cs rest : List Char) (h : ',' ∉ cs) :
    splitOnComma (cs ++ ',' :: rest) = cs :: splitOnComma rest := by
  induction cs with
  | nil => simp [splitOnComma]
  | cons c cs ih =>
    have hc : ¬ c = ',' := fun e => h (e ▸ List.mem_cons_self c cs)
    have hcs : ',' ∉ cs := fun m => h (List.mem_cons_of_mem _ m)
    simp [splitOnComma, hc, ih hcs]

lemma commaJoin_cons_cons (c c' : String) (cs : List String) :
    (commaJoin (c :: c' :: cs)).data = c.data ++ ',' :: (commaJoin (c' :: cs)).data := by
  show (c ++ "," ++ commaJoin (c' :: cs)).data = _
  simp

lemma splitOnComma_commaJoin (codes : List String) (hne : codes ≠ [])
    (h : ∀ c ∈ codes, ',' ∉ c.data) :
    splitOnComma (commaJoin codes).data = codes.map String.data := by
  induction codes with
  | nil => exact absurd rfl hne
  | cons c cs ih =>
    cases cs with
    | nil =>
      show splitOnComma c.data = [c.data]
      exact splitOnComma_no_comma c.data (h c (List.mem_cons_self c []))
    | cons c' cs' =>
      rw [commaJoin_cons_cons, splitOnComma_append _ _ (h c (List.mem_cons_self _ _)),
        ih (by simp) (fun x hx => h x (List.mem_cons_of_mem _ hx))]
      rfl

lemma processItem_cases (st : LoopState) (c : Company) :
    processItem st c = { st with skipped_count := st.skipped_count + 1 } ∨
    ∃ a, c.registered_office_address = some a ∧ a.isEmptyDict = false ∧
      essentialsEmpty c a = false ∧
      processItem st c = { st with
        output_lines := st.output_lines ++ companyBlock c a,
        processed_count := st.processed_count + 1 } := by
  unfold processItem
  cases h : c.registered_office_address with
  | none => exact Or.inl rfl
  | some a =>
    by_cases h1 : a.isEmptyDict
    · simp [h1]
    · by_cases h2 : essentialsEmpty c a
      · simp [h1, h2]
      · exact Or.inr ⟨a, rfl, by simpa using h1, by simpa using h2, by simp [h1, h2]⟩

lemma companyBlock_ne_nil (c : Company) (a : Address) : companyBlock c a ≠ [] := by
  simp [companyBlock]

lemma foldl_processItem_inv (items : List Company) (st : LoopState) :
    ∃ extra : List String,
      (items.foldl processItem st).output_lines = st.output_lines ++ extra ∧
      (items.foldl processItem st).processed_count +
          (items.foldl processItem st).skipped_count =
        st.processed_count + st.skipped_count + items.length ∧
      st.processed_count ≤ (items.foldl processItem st).processed_count ∧
      (extra = [] ↔ (items.foldl processItem st).processed_count = st.processed_count) := by
  induction items generalizing st with
  | nil => exact ⟨[], by simp, by simp, le_refl _, by simp⟩
  | cons c items ih =>
    obtain ⟨extra, hlines, hcount, hmono, hiff⟩ := ih (processItem st c)
    simp only [List.foldl_cons, List.length_cons]
    rcases processItem_cases st c with hcase | ⟨a, _, _, _, hcase⟩
    · rw [hcase] at hlines hcount hmono hiff ⊢
      dsimp only at hlines hcount hmono hiff
      exact ⟨extra, hlines, by omega, hmono, hiff⟩
    · rw [hcase] at hlines hcount hmono hiff ⊢
      dsimp only at hlines hcount hmono hiff
      refine ⟨companyBlock c a ++ extra, ?_, by omega, by omega, ?_⟩
      · rw [hlines, List.append_assoc]
      · constructor
        · intro h
          exact absurd (List.append_eq_nil.mp h).1 (companyBlock_ne_nil c a)
        · intro h
          exact absurd h (by omega)

lemma essentialsEmpty_iff (c : Company) (a : Address) :
    essentialsEmpty c a = true ↔
      (extractName c = "" ∧ a.address_line_1.getD "" = "" ∧
        a.locality.getD "" = "" ∧ a.postal_code.getD "" = "") := by
  simp [essentialsEmpty, Bool.and_eq_true, and_assoc]

lemma processItem_skip_iff (st : LoopState) (c : Company) (a : Address)
    (h1 : c.registered_office_address = some a) (h2 : a.isEmptyDict = false) :
    (processItem st c).skipped_count = st.skipped_count + 1 ↔
      essentialsEmpty c a = true := by
  unfold processItem
  rw [h1]
  simp only [h2, Bool.false_eq_true, if_false]
  by_cases he : essentialsEmpty c a
  · simp [he]
  · simp [he]

lemma essentialsEmpty_set_line2 (c : Company) (a : Address) (v : Option String) :
    essentialsEmpty
      { c with registered_office_address := some { a with address_line_2 := v } }
      { a with address_line_2 := v } = essentialsEmpty c a := rfl

lemma writer_writes_file (data : Option ApiData) (location : String)
    (c0 : String) (cs : List String) :
    (format_and_save_addresses data location (c0 :: cs)).fileContent.isSome = true := by
  unfold format_and_save_addresses
  cases data with
  | none => simp
  | some d =>
    obtain ⟨ditems, dhits, dother⟩ := d
    dsimp only
    by_cases ht : (ApiData.mk ditems dhits dother).truthy
    · rw [ht]
      cases ditems with
      | none => simp
      | some l =>
        cases l with
        | nil => simp
        | cons i is =>
          simp only [Bool.not_true, Bool.false_eq_true, if_false]
          split
          · simp
          · cases dhits <;> simp
    · rw [Bool.not_eq_true] at ht
      rw [ht]
      simp

/-! ## Claim theorems -/

/-- **C3.** On a 2xx response whose body does not parse, `response.json()`
raises `requests.exceptions.JSONDecodeError`, which subclasses
`RequestException`; the `except` ladder therefore runs the generic
request-error clause (line 48), never the parse-error clause (line 50),
though the function still returns `None`.  This refutes the claim that the
parse-error diagnostic branch is taken and shows the dedicated
`except json.JSONDecodeError` clause to be unreachable for this exception. -/
theorem c3_parse_branch_dead :
    dispatchExcept PyExc.jsonDecodeError = FetchBranch.genericBranch ∧
    dispatchExcept PyExc.jsonDecodeError ≠ FetchBranch.parseBranch ∧
    fetchResultOnException PyExc.jsonDecodeError = none := by
  decide

/-- **C4.** The Authorization header equals `"Basic "` followed by the
standard base64 encoding of the UTF-8 bytes of the credential with a colon
appended; for credential `"abc"` it is exactly `"Basic YWJjOg=="`. -/
theorem c4_authorization_header :
    authorizationHeader "abc" = "Basic YWJjOg==" ∧
    ∀ key : String,
      authorizationHeader key = "Basic " ++ base64Encode (utf8Encode (key ++ ":")) :=
  ⟨by decide, fun _ => rfl⟩

/-- **C5.** For a classification-code list whose entries are non-empty and
comma-free (as the entry point produces by splitting on commas and
stripping), the request URL is the fixed base plus `location`, the fixed
`company_status=active` and `size=500` parameters, and `sic_codes` set to
the comma-join of the codes; splitting that join on commas recovers every
code exactly once, in input order. -/
theorem c5_request_url (location : String) (codes : List String)
    (hne : codes ≠ []) (hcodes : ∀ c ∈ codes, c ≠ "" ∧ ',' ∉ c.data) :
    requestUrl location codes =
      base_url ++ "?location=" ++ location ++
        "&company_status=active&size=500&sic_codes=" ++ commaJoin codes ∧
    splitOnComma (commaJoin codes).data = codes.map String.data :=
  ⟨rfl, splitOnComma_commaJoin codes hne (fun c hc => (hcodes c hc).2)⟩

/-- Witness for C5 at location `"London"` and codes `["62020", "62090"]`. -/
theorem c5_request_url_witness :
    requestUrl "London" ["62020", "62090"] =
      base_url ++ "?location=" ++ "London" ++
        "&company_status=active&size=500&sic_codes=" ++ commaJoin ["62020", "62090"] ∧
    splitOnComma (commaJoin ["62020", "62090"]).data =
      ["62020", "62090"].map String.data :=
  c5_request_url "London" ["62020", "62090"] (by decide) (by decide)

/-- **C6.** For a non-empty code list the output filename is
`<safe_location>_<safe_first_code>.txt`, where the safe forms replace every
non-alphanumeric character with an underscore; the filename depends only on
the location and the first code, and e.g. `"New York!"` sanitizes to
`"New_York_"`. -/
theorem c6_output_filename (location c0 : String) (cs cs' : List String) :
    outputFilename location (c0 :: cs) =
      some (String.mk (location.data.map fun ch => if ch.isAlphanum then ch else '_') ++
        "_" ++ String.mk (c0.data.map fun ch => if ch.isAlphanum then ch else '_') ++
        ".txt") ∧
    outputFilename location (c0 :: cs) = outputFilename location (c0 :: cs') ∧
    sanitizeForFilename "New York!" = "New_York_" :=
  ⟨rfl, rfl, by decide⟩

/-- **C2 counterexample.** An item whose address dictionary is present and
non-empty (one unread key) but which lacks the `company_name` key and all
four address sub-fields: the name is extracted with default `"N/A"`, not
the empty string, so the item is processed rather than skipped — refuting
both the claimed empty-string default for the name and the claimed
skip condition. -/
theorem c2_counterexample :
    extractName { company_name := none,
                  registered_office_address := some ⟨none, none, none, none, 1⟩ } = "N/A" ∧
    ("N/A" : String) ≠ "" ∧
    (processItem initState
      { company_name := none,
        registered_office_address := some ⟨none, none, none, none, 1⟩ }).skipped_count = 0 ∧
    (processItem initState
      { company_name := none,
        registered_office_address := some ⟨none, none, none, none, 1⟩ }).processed_count = 1 := by
  decide

/-- **C2 (amended).** For an item whose address dictionary is present and
non-empty, the writer extracts the name with default `"N/A"` and the four
address sub-fields with empty-string defaults, and counts the item as
skipped if and only if the extracted name, address line 1, locality and
postal code are all empty strings (so an item missing the name key is never
skipped here, and address line 2 never influences the decision). -/
theorem c2_skip_decision (st : LoopState) (c : Company) (a : Address)
    (h1 : c.registered_office_address = some a) (h2 : a.isEmptyDict = false) :
    ((processItem st c).skipped_count = st.skipped_count + 1 ↔
      (extractName c = "" ∧ a.address_line_1.getD "" = "" ∧
        a.locality.getD "" = "" ∧ a.postal_code.getD "" = "")) ∧
    ∀ v : Option String,
      Address.isEmptyDict { a with address_line_2 := v } = false →
      ((processItem st
          { c with
            registered_office_address := some ({ a with address_line_2 := v }) }).skipped_count =
            st.skipped_count + 1 ↔
        (processItem st c).skipped_count = st.skipped_count + 1) := by
  constructor
  · exact (processItem_skip_iff st c a h1 h2).trans (essentialsEmpty_iff c a)
  · intro v hv
    refine (processItem_skip_iff st _ _ rfl hv).trans ?_
    rw [essentialsEmpty_set_line2]
    exact (processItem_skip_iff st c a h1 h2).symm

/-- Witness for C2: an item whose name key is present with value `""` and
whose address has empty line 1, locality and postal code is skipped. -/
theorem c2_skip_decision_witness :
    (processItem initState
      { company_name := some "",
        registered_office_address :=
          some ⟨some "", none, some "", some "", 0⟩ }).skipped_count =
      initState.skipped_count + 1 :=
  ((c2_skip_decision initState _ ⟨some "", none, some "", some "", 0⟩ rfl
      (by decide)).1).mpr ⟨rfl, rfl, rfl, rfl⟩

/-- **C7.** A processed item appends exactly the block: name, address line 1,
the address line 2 line only when non-empty, locality, postal code, and the
separator `"----"`; the block has six lines when address line 2 is non-empty
and five otherwise. -/
theorem c7_block (st : LoopState) (c : Company) (a : Address)
    (h1 : c.registered_office_address = some a) (h2 : a.isEmptyDict = false)
    (h3 : essentialsEmpty c a = false) :
    processItem st c = { st with
        output_lines := st.output_lines ++ companyBlock c a,
        processed_count := st.processed_count + 1 } ∧
    companyBlock c a =
      [extractName c, a.address_line_1.getD ""] ++
        (if a.address_line_2.getD "" ≠ "" then [a.address_line_2.getD ""] else []) ++
        [a.locality.getD "", a.postal_code.getD "", "----"] ∧
    (companyBlock c a).length = (if a.address_line_2.getD "" ≠ "" then 6 else 5) := by
  refine ⟨?_, rfl, ?_⟩
  · unfold processItem
    rw [h1]
    simp [h2, h3]
  · by_cases hv : a.address_line_2.getD "" ≠ "" <;> simp [companyBlock, hv]

/-- Witness for C7: a company with full address fields except address
line 2 contributes its five-line block. -/
theorem c7_block_witness :
    processItem initState
      { company_name := some "Acme",
        registered_office_address := some ⟨some "1 Rd", none, some "Lon", some "E1", 0⟩ } =
    { initState with
      output_lines := initState.output_lines ++
        companyBlock
          (Company.mk (some "Acme")
            (some ⟨some "1 Rd", none, some "Lon", some "E1", 0⟩))
          ⟨some "1 Rd", none, some "Lon", some "E1", 0⟩,
      processed_count := initState.processed_count + 1 } :=
  (c7_block initState _ _ rfl (by decide) (by decide)).1

/-- **C9.** After the loop over the items list, the processed and skipped
counts sum to the number of items, and the accumulated output lines are
non-empty exactly when the processed count is positive. -/
theorem c9_loop_counts (items : List Company) :
    (runItems items).processed_count + (runItems items).skipped_count = items.length ∧
    ((runItems items).output_lines ≠ [] ↔ 0 < (runItems items).processed_count) := by
  obtain ⟨extra, hlines, hcount, hmono, hiff⟩ := foldl_processItem_inv items initState
  unfold runItems
  constructor
  · have h0 : initState.processed_count + initState.skipped_count = 0 := rfl
    omega
  · rw [hlines]
    have h1 : initState.output_lines = [] := rfl
    rw [h1, List.nil_append, Nat.pos_iff_ne_zero]
    have h2 : initState.processed_count = 0 := rfl
    rw [h2] at hiff
    exact not_congr hiff

/-- **C1 counterexample.** A fetch that succeeds (2xx, body parses) but whose
parsed body is the empty JSON object `{}` is falsy, so the entry point's
`if company_api_data:` guard skips the report writer entirely and no output
file is written — refuting the claim for this successful run. -/
theorem c1_counterexample :
    (ApiData.mk none none 0).truthy = false ∧
    mainAfterFetch (some (ApiData.mk none none 0)) "London" ["62020"] = none := by
  decide

/-- **C1 (amended).** For every run in which the fetch succeeds and the
parsed response is truthy (a non-empty JSON object), the output file exists
afterwards — even when the items list is absent or empty, or no company has
a usable address (an explanatory message is written in those cases); the
entry point always supplies a non-empty code list. -/
theorem c1_file_always_written (d : ApiData) (location : String)
    (codes : List String) (htruthy : d.truthy = true) (hcodes : codes ≠ []) :
    (mainAfterFetch (some d) location codes).isSome = true := by
  cases codes with
  | nil => exact absurd rfl hcodes
  | cons c0 cs =>
    unfold mainAfterFetch
    dsimp only
    rw [htruthy]
    simp only [if_true]
    exact writer_writes_file (some d) location c0 cs

/-- Witness for C1: a truthy response with an empty items list still
produces an output file. -/
theorem c1_file_always_written_witness :
    (ApiData.mk (some []) (some 0) 0).truthy = true ∧
    (mainAfterFetch (some (ApiData.mk (some []) (some 0) 0)) "London"
      ["62020"]).isSome = true :=
  ⟨by decide, c1_file_always_written _ "London" _ (by decide) (by simp)⟩

/-- **C8.** When the items list is non-empty, the `hits` field is an integer
and at least one block was written, the partial-results note is printed if
and only if the number of items is strictly less than the reported hits. -/
theorem c8_pagination_note (location : String) (codes : List String)
    (d : ApiData) (i : Company) (is : List Company) (h : Int)
    (hcodes : codes ≠ []) (hitems : d.items = some (i :: is))
    (hhits : d.hits = some h)
    (hproc : 0 < (runItems (i :: is)).processed_count) :
    (format_and_save_addresses (some d) location codes).paginationNote = true ↔
      (((i :: is).length : Int) < h) := by
  cases codes with
  | nil => exact absurd rfl hcodes
  | cons c0 cs =>
    obtain ⟨ditems, dhits, dother⟩ := d
    dsimp only at hitems hhits
    subst hitems hhits
    unfold format_and_save_addresses
    dsimp only
    have ht : (ApiData.mk (some (i :: is)) (some h) dother).truthy = true := by
      simp [ApiData.truthy]
    rw [ht]
    have hp0 : (runItems (i :: is)).processed_count ≠ 0 := Nat.pos_iff_ne_zero.mp hproc
    have hcond : ((runItems (i :: is)).output_lines.isEmpty &&
        ((runItems (i :: is)).processed_count == 0)) = false := by
      simp [hp0]
    simp only [Bool.not_true, Bool.false_eq_true, if_false, hcond]
    simp

/-- Witness for C8: one item on the page against five reported hits prints
the note. -/
theorem c8_pagination_note_witness :
    (format_and_save_addresses
      (some (ApiData.mk
        (some [Company.mk (some "Acme")
          (some (Address.mk (some "1 Rd") none (some "Lon") (some "E1") 0))])
        (some 5) 0)) "London" ["62020"]).paginationNote = true :=
  (c8_pagination_note "London" ["62020"] _
      (Company.mk (some "Acme")
        (some (Address.mk (some "1 Rd") none (some "Lon") (some "E1") 0)))
      [] 5 (by simp) rfl rfl (by decide)).mpr (by decide)

/-- **C10.** When the loop processed at least one item but the response has
no `hits` key, the post-write diagnostics compare the integer item count
against the default string `"N/A"`, which raises an uncaught `TypeError`:
the run does not terminate gracefully, although the report file (the
newline-joined blocks) was already written. -/
theorem c10_missing_hits_raises (location : String) (codes : List String)
    (d : ApiData) (items : List Company)
    (hcodes : codes ≠ []) (hitems : d.items = some items) (hhits : d.hits = none)
    (hproc : 0 < (runItems items).processed_count) :
    (format_and_save_addresses (some d) location codes).uncaughtTypeError = true ∧
    (format_and_save_addresses (some d) location codes).fileContent =
      some (String.intercalate "\n" (runItems items).output_lines) := by
  cases codes with
  | nil => exact absurd rfl hcodes
  | cons c0 cs =>
    cases items with
    | nil =>
      rw [show (runItems ([] : List Company)).processed_count = 0 from rfl] at hproc
      exact absurd hproc (lt_irrefl 0)
    | cons i is =>
      obtain ⟨ditems, dhits, dother⟩ := d
      dsimp only at hitems hhits
      subst hitems hhits
      unfold format_and_save_addresses
      dsimp only
      have ht : (ApiData.mk (some (i :: is)) none dother).truthy = true := by
        simp [ApiData.truthy]
      rw [ht]
      have hp0 : (runItems (i :: is)).processed_count ≠ 0 := Nat.pos_iff_ne_zero.mp hproc
      have hcond : ((runItems (i :: is)).output_lines.isEmpty &&
          ((runItems (i :: is)).processed_count == 0)) = false := by
        simp [hp0]
      simp only [Bool.not_true, Bool.false_eq_true, if_false, hcond]
      simp

/-- Witness for C10: one fully addressed item and no `hits` key — the file
is written, then the type error escapes. -/
theorem c10_missing_hits_raises_witness :
    (format_and_save_addresses
      (some (ApiData.mk
        (some [Company.mk (some "Acme")
          (some (Address.mk (some "1 Rd") none (some "Lon") (some "E1") 0))])
        none 0)) "London" ["62020"]).uncaughtTypeError = true :=
  (c10_missing_hits_raises "London" ["62020"] _ _ (by simp) rfl rfl (by decide)).1

end CompanyAddressExtractor
